import Mathlib

/-!
Verification development for the telegram-auto-deletion repository
(source files: delete.py and imghdr.py).

The Python source is shallowly embedded below: byte strings become
`List Nat`, the telethon entity classes (User / Channel / Chat / anything
else) become the closed inductive `Entity`, remote calls become the
inductive `RemoteCall`, and the remote side's behaviour (success,
FloodWaitError, generic exception) is an explicit function parameter.
Console output is recorded as a list of printed strings where a claim
depends on it; progress prints and the inter-item `asyncio.sleep` in the
deletion loop, which no property here depends on, are not modelled.
-/

/-! ## imghdr.py -/

/-- Byte-string prefix test, `bytes.startswith` on `List Nat` bytes. -/
def bytesStartWith (sig h : List Nat) : Bool :=
  List.isPrefixOf sig h

/-- Python slice `h[a:b]` on a byte string (clamping, never raising). -/
def pySlice (h : List Nat) (a b : Nat) : List Nat :=
  (h.drop a).take (b - a)

/-- `b'\xff\xd8'` -/
def jpegSig : List Nat := [0xff, 0xd8]
/-- `b'\x89PNG\r\n\x1a\n'` -/
def pngSig : List Nat := [0x89, 0x50, 0x4e, 0x47, 0x0d, 0x0a, 0x1a, 0x0a]
/-- `b'GIF87a'` -/
def gif87Sig : List Nat := [0x47, 0x49, 0x46, 0x38, 0x37, 0x61]
/-- `b'GIF89a'` -/
def gif89Sig : List Nat := [0x47, 0x49, 0x46, 0x38, 0x39, 0x61]
/-- `b'RIFF'` -/
def riffSig : List Nat := [0x52, 0x49, 0x46, 0x46]
/-- `b'WEBP'` -/
def webpTag : List Nat := [0x57, 0x45, 0x42, 0x50]
/-- `b'BM'` -/
def bmpSig : List Nat := [0x42, 0x4d]
/-- `b'\x00\x00\x01\x00'` -/
def icoSig : List Nat := [0x00, 0x00, 0x01, 0x00]
/-- `b'\x00\x00\x02\x00'` -/
def curSig : List Nat := [0x00, 0x00, 0x02, 0x00]
/-- `b'II*\x00'` -/
def tiffIISig : List Nat := [0x49, 0x49, 0x2a, 0x00]
/-- `b'MM\x00*'` -/
def tiffMMSig : List Nat := [0x4d, 0x4d, 0x00, 0x2a]

/-- The signature-matching chain of `imghdr.what` (imghdr.py lines 26-42),
applied to the header bytes `h`. -/
def whatBytes (h : List Nat) : Option String :=
  if bytesStartWith jpegSig h then some "jpeg"
  else if bytesStartWith pngSig h then some "png"
  else if bytesStartWith gif87Sig h || bytesStartWith gif89Sig h then some "gif"
  else if bytesStartWith riffSig h && pySlice h 8 12 == webpTag then some "webp"
  else if bytesStartWith bmpSig h then some "bmp"
  else if bytesStartWith icoSig h then some "ico"
  else if bytesStartWith curSig h then some "cur"
  else if bytesStartWith tiffIISig h || bytesStartWith tiffMMSig h then some "tiff"
  else none

/-- The `file` argument of `imghdr.what`: either a filename string or a
file object (modelled by its contents and current position). -/
inductive FileArg where
  | name (s : String)
  | handle (contents : List Nat) (pos : Nat)
deriving DecidableEq

/-- The exception `open(file, 'rb')` raises when the path cannot be
opened (FileNotFoundError / PermissionError). -/
inductive OpenFail where
  | openFailed (path : String)
deriving DecidableEq

/-- `imghdr.what(file, h)` (imghdr.py lines 6-42).  The filesystem is the
explicit map `fs` from path to contents (`none` = unreadable: `open`
raises, which the source does not catch, hence the `Except.error`).
A file object reads 32 bytes from its current position and seeks back. -/
def what (fs : String → Option (List Nat)) (file : FileArg) (hdr : Option (List Nat)) :
    Except OpenFail (Option String) :=
  match hdr with
  | some h => Except.ok (whatBytes h)
  | none =>
    match file with
    | FileArg.name s =>
      match fs s with
      | some contents => Except.ok (whatBytes (contents.take 32))
      | none => Except.error (OpenFail.openFailed s)
    | FileArg.handle contents pos => Except.ok (whatBytes ((contents.drop pos).take 32))

/-! ## delete.py: data model -/

/-- The telethon entity attached to a dialog, as a closed variant:
`User`, `Channel` (with its `broadcast` and `megagroup` flags), `Chat`,
or any other type (whose `id` attribute may be absent: `getattr(entity,
'id', 0)`). -/
inductive Entity where
  | user (id : Nat) (firstName : String) (lastName : Option String) (username : Option String)
  | channel (id : Nat) (broadcast : Bool) (megagroup : Bool)
  | chat (id : Nat)
  | other (id : Option Nat)
deriving DecidableEq

/-- One dialog from `client.iter_dialogs()`: its resolved display name
and its entity. -/
structure Dialog where
  name : String
  entity : Entity
deriving DecidableEq

/-- `TelegramItem` (delete.py lines 47-57). `selected` defaults to false. -/
structure TelegramItem where
  id : Nat
  name : String
  type : String
  entity : Entity
  selected : Bool := false
deriving DecidableEq

/-- Python truthiness helper for `x if x else dflt` on an optional
string: `None` and the empty string are both falsy. -/
def pyOr (x : Option String) (dflt : String) : String :=
  match x with
  | some s => if s = "" then dflt else s
  | none => dflt

/-- The four buckets of the inventory dictionary. -/
inductive Bucket where
  | private_chats
  | groups
  | channels
  | other
deriving DecidableEq

/-- The inventory dictionary built by `get_all_items`. -/
structure Inventory where
  private_chats : List TelegramItem
  groups : List TelegramItem
  channels : List TelegramItem
  other : List TelegramItem
deriving DecidableEq

def Inventory.empty : Inventory := ⟨[], [], [], []⟩

/-- The bucket list selected by a `Bucket` key. -/
def Inventory.bucket (inv : Inventory) : Bucket → List TelegramItem
  | Bucket.private_chats => inv.private_chats
  | Bucket.groups => inv.groups
  | Bucket.channels => inv.channels
  | Bucket.other => inv.other

/-- Total number of items across the four buckets. -/
def Inventory.size (inv : Inventory) : Nat :=
  inv.private_chats.length + inv.groups.length + inv.channels.length + inv.other.length

/-- The `TelegramItem` the loop body of `get_all_items` (delete.py lines
76-139) constructs for one dialog: the branch on the entity's class and
flags, with the type label and display name of that branch. -/
def itemOfDialog (d : Dialog) : TelegramItem :=
  match d.entity with
  | Entity.user id fn ln un =>
    ⟨id, fn ++ " " ++ pyOr ln "" ++ " (@" ++ pyOr un "No username" ++ ")",
      "Private Chat", d.entity, false⟩
  | Entity.channel id broadcast megagroup =>
    if broadcast then ⟨id, d.name, "Broadcast Channel", d.entity, false⟩
    else if megagroup then ⟨id, d.name, "Supergroup", d.entity, false⟩
    else ⟨id, d.name, "Channel", d.entity, false⟩
  | Entity.chat id => ⟨id, d.name, "Small Group", d.entity, false⟩
  | Entity.other oid => ⟨oid.getD 0, d.name, "Other", d.entity, false⟩

/-- The bucket the same branch appends to: `User` dialogs go to
`private_chats`; `Channel` dialogs to `channels` when `broadcast`, to
`groups` when (not broadcast and) `megagroup`, else to `channels`;
`Chat` dialogs to `groups`; everything else to `other`. -/
def bucketOf (d : Dialog) : Bucket :=
  match d.entity with
  | Entity.user _ _ _ _ => Bucket.private_chats
  | Entity.channel _ broadcast megagroup =>
    if broadcast then Bucket.channels
    else if megagroup then Bucket.groups
    else Bucket.channels
  | Entity.chat _ => Bucket.groups
  | Entity.other _ => Bucket.other

/-- One iteration of the `async for dialog in client.iter_dialogs()` loop:
append the constructed item to its bucket. -/
def addDialog (inv : Inventory) (d : Dialog) : Inventory :=
  match bucketOf d with
  | Bucket.private_chats => { inv with private_chats := inv.private_chats ++ [itemOfDialog d] }
  | Bucket.groups => { inv with groups := inv.groups ++ [itemOfDialog d] }
  | Bucket.channels => { inv with channels := inv.channels ++ [itemOfDialog d] }
  | Bucket.other => { inv with other := inv.other ++ [itemOfDialog d] }

/-- `get_all_items` (delete.py lines 59-141) over the finite dialog list
the lazy `iter_dialogs()` sequence yields for this run. -/
def get_all_items (dialogs : List Dialog) : Inventory :=
  dialogs.foldl addDialog Inventory.empty

/-! ## delete.py: deletion executor -/

/-- The remote requests the executor can issue.  `deleteHistory` carries
the arguments of `DeleteHistoryRequest` (peer, max_id, just_clear,
revoke); `leaveChannel` carries the entity of `LeaveChannelRequest`;
`deleteChatUser` carries the `chat_id` of `DeleteChatUserRequest` (its
`user_id` is always the literal `'me'`). -/
inductive RemoteCall where
  | deleteHistory (peer : Entity) (max_id : Nat) (just_clear : Bool) (revoke : Bool)
  | leaveChannel (channel : Entity)
  | deleteChatUser (chat_id : Nat)
deriving DecidableEq

/-- An exception from a remote call: `errors.FloodWaitError` (with its
`seconds`) or any other exception (with its message). -/
inductive RemoteErr where
  | floodWait (seconds : Nat)
  | generic (msg : String)
deriving DecidableEq

/-- The remote side's behaviour for this run: each issued call either
returns normally or raises. -/
def Remote : Type := RemoteCall → Except RemoteErr Unit

/-- `delete_private_chat` (delete.py lines 143-168): issue the
`DeleteHistoryRequest` with `max_id=0`, `just_clear=False`,
`revoke=True`; return the list of calls issued and the function's
boolean result (`True` on a normal response; a `FloodWaitError` or any
other exception is caught, logged, and yields `False`). -/
def delete_private_chat (remote : Remote) (item : TelegramItem) : List RemoteCall × Bool :=
  let c := RemoteCall.deleteHistory item.entity 0 false true
  ([c],
    match remote c with
    | Except.ok _ => true
    | Except.error (RemoteErr.floodWait _) => false
    | Except.error (RemoteErr.generic _) => false)

/-- `leave_group_or_channel` (delete.py lines 170-197): dispatch on the
entity's class — `LeaveChannelRequest(item.entity)` when the entity is a
`Channel`, else `DeleteChatUserRequest(chat_id=item.id, user_id='me')` —
with the same catch-all exception handling. -/
def leave_group_or_channel (remote : Remote) (item : TelegramItem) : List RemoteCall × Bool :=
  let c := match item.entity with
    | Entity.channel _ _ _ => RemoteCall.leaveChannel item.entity
    | _ => RemoteCall.deleteChatUser item.id
  ([c],
    match remote c with
    | Except.ok _ => true
    | Except.error (RemoteErr.floodWait _) => false
    | Except.error (RemoteErr.generic _) => false)

/-- Substring test on the character lists of strings (Python's
`"Group" in item.type`). -/
def charsContain (pat : List Char) : List Char → Bool
  | [] => pat.isEmpty
  | c :: rest => List.isPrefixOf pat (c :: rest) || charsContain pat rest

/-- Python's `sub in s` on strings. -/
def strContains (s sub : String) : Bool :=
  charsContain sub.toList s.toList

/-- `delete_item` (delete.py lines 199-216): dispatch on the item's type
label; unknown labels issue no call, log a warning and count as failed. -/
def delete_item (remote : Remote) (item : TelegramItem) : List RemoteCall × Bool :=
  if item.type = "Private Chat" then delete_private_chat remote item
  else if strContains item.type "Group" || strContains item.type "Channel" then
    leave_group_or_channel remote item
  else ([], false)

/-- The calls `delete_item` issues for one item; they do not depend on
the remote side's responses. -/
def callsOf (item : TelegramItem) : List RemoteCall :=
  if item.type = "Private Chat" then [RemoteCall.deleteHistory item.entity 0 false true]
  else if strContains item.type "Group" || strContains item.type "Channel" then
    match item.entity with
    | Entity.channel _ _ _ => [RemoteCall.leaveChannel item.entity]
    | _ => [RemoteCall.deleteChatUser item.id]
  else []

/-- The deletion loop of `main` (delete.py lines 445-459): process every
selected item in order, appending the calls each `delete_item` issues
and counting its successes.  Returns (trace of issued calls, success
count). -/
def deletionLoop (remote : Remote) : List TelegramItem → List RemoteCall × Nat
  | [] => ([], 0)
  | item :: rest =>
    let r := delete_item remote item
    let tailRes := deletionLoop remote rest
    (r.1 ++ tailRes.1, (if r.2 then 1 else 0) + tailRes.2)

/-- Python `str.lower()` (ASCII range; the inputs involved are ASCII). -/
def pyLower (s : String) : String := ⟨s.data.map Char.toLower⟩

/-- Python `str.strip()`: whitespace removed from both ends. -/
def pyStrip (s : String) : String :=
  ⟨((s.data.dropWhile Char.isWhitespace).reverse.dropWhile Char.isWhitespace).reverse⟩

/-- The confirmation gate and execution phase of `main` (delete.py lines
437-461): `confirm = input(...).lower()`; any value other than "yes"
cancels (no calls, no tally); otherwise the deletion loop runs.  Returns
the trace of issued remote calls and `some successCount` when the loop
ran. -/
def confirm_and_execute (remote : Remote) (confirmRaw : String)
    (items : List TelegramItem) : List RemoteCall × Option Nat :=
  let confirm := pyLower confirmRaw
  if confirm ≠ "yes" then ([], none)
  else
    let r := deletionLoop remote items
    (r.1, some r.2)

/-! ## delete.py: command-line selection -/

/-- The argparse flags of `main` (delete.py lines 327-334). -/
structure Args where
  all : Bool
  chats : Bool
  groups : Bool
  channels : Bool
  interactive : Bool
deriving DecidableEq

/-- The non-interactive, flag-driven branch of `main`'s selection
(delete.py lines 380-391), for runs where `--interactive` is absent and
at least one category flag is present (otherwise the source falls
through to the numeric menu): `--all` takes every bucket in dictionary
order, else the union of the flagged buckets in the order chats, groups,
channels. -/
def select_by_flags (args : Args) (inv : Inventory) : List TelegramItem :=
  if args.all then inv.private_chats ++ inv.groups ++ inv.channels ++ inv.other
  else
    (if args.chats then inv.private_chats else []) ++
    (if args.groups then inv.groups else []) ++
    (if args.channels then inv.channels else [])

/-! ## delete.py: interactive selection -/

/-- The flattened item list `interactive_selection` operates on
(delete.py lines 229-231): buckets concatenated in dictionary order. -/
def flattenInventory (inv : Inventory) : List TelegramItem :=
  inv.private_chats ++ inv.groups ++ inv.channels ++ inv.other

/-- Outcome of processing one interactive command (delete.py lines
251-318): `proceed` returns the selected items (`done` with a non-empty
selection), `exitProgram` is `sys.exit` (`quit`), and `again` continues
the loop with the updated item list.  `out` lists the lines printed
after the command was read. -/
inductive StepResult where
  | proceed (selected : List TelegramItem)
  | exitProgram (code : Nat) (out : List String)
  | again (items : List TelegramItem) (out : List String)
deriving DecidableEq

/-- The status line printed after every command that falls through to
the bottom of the loop body (delete.py lines 317-318), computed on the
post-command item list. -/
def statusLine (items : List TelegramItem) : String :=
  "\nCurrently selected: " ++ toString (items.filter (fun it => it.selected)).length ++
    " out of " ++ toString items.length ++ " items"

/-- `flat_items[i].selected = not flat_items[i].selected` for every index
`i` with `lo ≤ i < hi` (the Python `for i in range(lo, hi)` toggle
body); `j` is the index of the list's head. -/
def toggleFrom (lo hi : Nat) : Nat → List TelegramItem → List TelegramItem
  | _, [] => []
  | j, it :: rest =>
    (if lo ≤ j ∧ j < hi then { it with selected := !it.selected } else it) ::
      toggleFrom lo hi (j + 1) rest

/-- True on a non-empty run of decimal digits (Python `str.isdigit` for
the ASCII inputs involved). -/
def pyIsDigits (cs : List Char) : Bool :=
  !cs.isEmpty && cs.all Char.isDigit

/-- The numeric value of a run of decimal digits. -/
def pyNatOfDigits (cs : List Char) : Nat :=
  cs.foldl (fun acc c => acc * 10 + (c.toNat - 48)) 0

/-- Python `s.split(sep)` for the one-character separator `'-'`. -/
def splitDash : List Char → List (List Char)
  | [] => [[]]
  | c :: rest =>
    let r := splitDash rest
    if c = '-' then [] :: r
    else
      match r with
      | [] => [[c]]
      | h :: t => (c :: h) :: t

/-- Python `int(s)` restricted to what a piece of `cmd.split("-")` can
be: surrounding whitespace and an optional leading `+` are accepted
around a non-empty run of decimal digits; anything else raises
`ValueError` (`none`).  (Pieces of a `"-"` split cannot contain a sign
`-`; digit-group underscores are not modelled.) -/
def pyInt (cs : List Char) : Option Nat :=
  let t := (cs.dropWhile Char.isWhitespace).reverse.dropWhile Char.isWhitespace |>.reverse
  let t2 := match t with
    | '+' :: rest => rest
    | _ => t
  if pyIsDigits t2 then some (pyNatOfDigits t2) else none

/-- One iteration of the `interactive_selection` command loop (delete.py
lines 251-318), from the moment the command line `raw` is read:
`cmd = raw.strip().lower()`, then the if/elif chain in source order
(`done`, `quit`, `all`, `none`, `chats`, `groups`, `channels`, `"-" in
cmd`, `cmd.isdigit()`, unknown).  The `done`-with-empty-selection branch
hits `continue`, skipping the status line; every other non-terminal
branch prints its message and then the status line. -/
def processCommand (raw : String) (flat : List TelegramItem) : StepResult :=
  let cmd := pyLower (pyStrip raw)
  if cmd = "done" then
    let sel := flat.filter (fun it => it.selected)
    if sel.isEmpty then
      StepResult.again flat ["No items selected. Please select at least one item or type 'quit'."]
    else StepResult.proceed sel
  else if cmd = "quit" then
    StepResult.exitProgram 0 ["Operation cancelled."]
  else if cmd = "all" then
    let f := flat.map (fun it => { it with selected := true })
    StepResult.again f ["All items selected.", statusLine f]
  else if cmd = "none" then
    let f := flat.map (fun it => { it with selected := false })
    StepResult.again f ["All items deselected.", statusLine f]
  else if cmd = "chats" then
    let f := flat.map (fun it => if it.type = "Private Chat" then { it with selected := true } else it)
    StepResult.again f ["All private chats selected.", statusLine f]
  else if cmd = "groups" then
    let f := flat.map (fun it => if strContains it.type "Group" then { it with selected := true } else it)
    StepResult.again f ["All groups selected.", statusLine f]
  else if cmd = "channels" then
    let f := flat.map (fun it => if strContains it.type "Channel" then { it with selected := true } else it)
    StepResult.again f ["All channels selected.", statusLine f]
  else if strContains cmd "-" then
    match (splitDash cmd.data).mapM pyInt with
    | some [a, b] =>
      if 1 ≤ a ∧ a ≤ flat.length ∧ 1 ≤ b ∧ b ≤ flat.length then
        let f := toggleFrom (a - 1) b 0 flat
        StepResult.again f
          ["Toggled selection for items " ++ toString a ++ " to " ++ toString b ++ ".",
            statusLine f]
      else
        StepResult.again flat
          ["Invalid range. Please use numbers between 1 and " ++ toString flat.length ++ ".",
            statusLine flat]
    | _ =>
      StepResult.again flat
        ["Invalid range format. Use 'start-end' (e.g., '5-10').", statusLine flat]
  else if pyIsDigits cmd.data then
    let idx := pyNatOfDigits cmd.data
    if 1 ≤ idx ∧ idx ≤ flat.length then
      let f := toggleFrom (idx - 1) idx 0 flat
      let msg := match f.get? (idx - 1) with
        | some it =>
          (if it.selected then "Selected" else "Deselected") ++ " item: " ++ it.name
        | none => ""
      StepResult.again f [msg, statusLine f]
    else
      StepResult.again flat
        ["Invalid item number. Please use a number between 1 and " ++
            toString flat.length ++ ".",
          statusLine flat]
  else
    StepResult.again flat ["Unknown command. Please try again.", statusLine flat]

/-! ## Sample data used by closed witnesses and counterexamples -/

/-- A remote side on which every call succeeds. -/
def remoteOk : Remote := fun _ => Except.ok ()

/-- A private-chat item as `get_all_items` builds it for a bare `User`
entity (no last name, no username). -/
def samplePriv (n : Nat) (nm : String) : TelegramItem :=
  ⟨n, nm, "Private Chat", Entity.user n nm none none, false⟩

/-! ## Helper lemmas -/

theorem confirm_gate_skips (remote : Remote) (s : String) (items : List TelegramItem)
    (h : pyLower s ≠ "yes") : confirm_and_execute remote s items = ([], none) := by
  unfold confirm_and_execute
  rw [if_pos h]

theorem delete_item_calls (remote : Remote) (item : TelegramItem) :
    (delete_item remote item).1 = callsOf item := by
  rcases item with ⟨id, nm, ty, e, sel⟩
  unfold delete_item callsOf delete_private_chat leave_group_or_channel
  dsimp only
  split_ifs <;> cases e <;> rfl

theorem deletionLoop_calls (remote : Remote) (items : List TelegramItem) :
    (deletionLoop remote items).1 = items.flatMap callsOf := by
  induction items with
  | nil => rfl
  | cons it rest ih => simp [deletionLoop, delete_item_calls, ih]

theorem deletionLoop_tally (remote : Remote) (items : List TelegramItem) :
    (deletionLoop remote items).2 =
      (items.filter (fun it => (delete_item remote it).2)).length := by
  induction items with
  | nil => rfl
  | cons it rest ih =>
    unfold deletionLoop
    cases h : (delete_item remote it).2 <;> simp [List.filter, h, ih]
    omega

theorem toggleFrom_ge (lo hi : Nat) (h : hi ≤ lo) (j : Nat) (l : List TelegramItem) :
    toggleFrom lo hi j l = l := by
  induction l generalizing j with
  | nil => rfl
  | cons it rest ih =>
    unfold toggleFrom
    rw [if_neg (by omega), ih]

theorem toggleFrom_get? (lo hi : Nat) (l : List TelegramItem) :
    ∀ j i : Nat, (toggleFrom lo hi j l).get? i =
      (l.get? i).map (fun it =>
        if lo ≤ j + i ∧ j + i < hi then { it with selected := !it.selected } else it) := by
  induction l with
  | nil => intro j i; rfl
  | cons it rest ih =>
    intro j i
    cases i with
    | zero => simp [toggleFrom]
    | succ n =>
      have harith : j + 1 + n = j + (n + 1) := by omega
      simp only [toggleFrom, List.get?]
      rw [ih (j + 1) n, harith]

theorem addDialog_bucket (inv : Inventory) (d : Dialog) (b : Bucket) :
    (addDialog inv d).bucket b =
      if bucketOf d = b then inv.bucket b ++ [itemOfDialog d] else inv.bucket b := by
  unfold addDialog
  cases hb : bucketOf d <;> cases b <;> simp [Inventory.bucket]

theorem addDialog_size (inv : Inventory) (d : Dialog) :
    (addDialog inv d).size = inv.size + 1 := by
  unfold addDialog
  cases bucketOf d <;> simp [Inventory.size] <;> omega

theorem foldl_addDialog_size (ds : List Dialog) :
    ∀ inv : Inventory, (List.foldl addDialog inv ds).size = inv.size + ds.length := by
  induction ds with
  | nil => intro inv; simp
  | cons d rest ih => intro inv; simp [List.foldl, ih, addDialog_size]; omega

theorem foldl_addDialog_bucket (ds : List Dialog) :
    ∀ (inv : Inventory) (b : Bucket),
      (List.foldl addDialog inv ds).bucket b =
        inv.bucket b ++ (ds.filter (fun d => bucketOf d == b)).map itemOfDialog := by
  induction ds with
  | nil => intro inv b; simp
  | cons d rest ih =>
    intro inv b
    simp only [List.foldl_cons]
    rw [ih]
    by_cases h : bucketOf d = b
    · simp [List.filter_cons, h, addDialog_bucket]
    · simp [List.filter_cons, h, addDialog_bucket]

theorem bytesStartWith_take (sig h : List Nat) (n : Nat) (hl : sig.length ≤ n) :
    bytesStartWith sig (h.take n) = bytesStartWith sig h := by
  unfold bytesStartWith
  have hiff : (List.isPrefixOf sig (h.take n) = true) ↔ (List.isPrefixOf sig h = true) := by
    rw [ List.isPrefixOf_iff_prefix, List.isPrefixOf_iff_prefix, List.prefix_take_iff]
    exact ⟨fun hp => hp.1, fun hp => ⟨hp, hl⟩⟩
  exact Bool.eq_iff_iff.mpr hiff

theorem pySlice_take32 (h : List Nat) : pySlice (h.take 32) 8 12 = pySlice h 8 12 := by
  unfold pySlice
  rw [List.drop_take]
  rw [show (32 : Nat) - 8 = 24 from rfl, show (12 : Nat) - 8 = 4 from rfl, List.take_take]
  norm_num

theorem whatBytes_take32 (h : List Nat) : whatBytes (h.take 32) = whatBytes h := by
  unfold whatBytes
  rw [bytesStartWith_take jpegSig h 32 (by decide),
    bytesStartWith_take pngSig h 32 (by decide),
    bytesStartWith_take gif87Sig h 32 (by decide),
    bytesStartWith_take gif89Sig h 32 (by decide),
    bytesStartWith_take riffSig h 32 (by decide),
    pySlice_take32 h,
    bytesStartWith_take bmpSig h 32 (by decide),
    bytesStartWith_take icoSig h 32 (by decide),
    bytesStartWith_take curSig h 32 (by decide),
    bytesStartWith_take tiffIISig h 32 (by decide),
    bytesStartWith_take tiffMMSig h 32 (by decide)]

theorem bytesStartWith_false_of_short (sig h : List Nat) (hl : h.length < sig.length) :
    bytesStartWith sig h = false := by
  unfold bytesStartWith
  by_contra hc
  rw [Bool.not_eq_false] at hc
  have := ( List.isPrefixOf_iff_prefix.mp hc).length_le
  omega

theorem whatBytes_short (h : List Nat) (hs : h.length < 2) : whatBytes h = none := by
  have t : ∀ sig : List Nat, 2 ≤ sig.length → bytesStartWith sig h = false :=
    fun sig h2 => bytesStartWith_false_of_short sig h (by omega)
  rw [whatBytes, t jpegSig (by decide), t pngSig (by decide), t gif87Sig (by decide),
    t gif89Sig (by decide), t riffSig (by decide), t bmpSig (by decide), t icoSig (by decide),
    t curSig (by decide), t tiffIISig (by decide), t tiffMMSig (by decide)]
  simp

/-! ## Claim theorems -/

/-- Five private chats, as the scenario of the spec's rate-limit test. -/
def fiveChats : List TelegramItem :=
  [samplePriv 1 "c1", samplePriv 2 "c2", samplePriv 3 "c3", samplePriv 4 "c4", samplePriv 5 "c5"]

/-- A remote side that rate-limits exactly the history erase of chat 3
and succeeds on everything else. -/
def floodOnChat3 : Remote := fun c =>
  match c with
  | RemoteCall.deleteHistory (Entity.user 3 _ _ _) _ _ _ =>
    Except.error (RemoteErr.floodWait 30)
  | _ => Except.ok ()

/-- C2: every exception from a remote call is caught inside the per-item
delete, so the trace of issued calls is exactly the concatenation of
each item's own calls — independent of any other item's outcome, a
failure on item k never prevents items k+1..n from being attempted —
and the final tally counts precisely the items whose own call
succeeded, out of all attempted items.  Concretely, a rate-limit
failure on item 3 of 5 still attempts all 5 items and tallies 4
successes out of 5. -/
theorem deletion_loop_failure_isolation :
    (∀ (remote : Remote) (items : List TelegramItem),
      (deletionLoop remote items).1 = items.flatMap callsOf ∧
      (deletionLoop remote items).2 =
        (items.filter (fun it => (delete_item remote it).2)).length ∧
      (items.filter (fun it => (delete_item remote it).2)).length ≤ items.length) ∧
    ((deletionLoop floodOnChat3 fiveChats).1.length = 5 ∧
      (deletionLoop floodOnChat3 fiveChats).2 = 4) := by
  refine ⟨fun remote items => ⟨deletionLoop_calls remote items,
    deletionLoop_tally remote items, List.length_filter_le _ _⟩, by decide⟩

/-- C4: `get_all_items` partitions its input: the four bucket sizes sum
to the number of input records, and each bucket holds exactly the items
of the records the branch rule sends to it (so a record, landing in the
single bucket `bucketOf` chooses, is never placed in two buckets). -/
theorem inventory_partition (ds : List Dialog) :
    (get_all_items ds).size = ds.length ∧
    ∀ b : Bucket, (get_all_items ds).bucket b =
      (ds.filter (fun d => bucketOf d == b)).map itemOfDialog := by
  constructor
  · rw [get_all_items, foldl_addDialog_size]
    simp [Inventory.empty, Inventory.size]
  · intro b
    rw [get_all_items, foldl_addDialog_bucket]
    cases b <;> simp [Inventory.empty, Inventory.bucket]

/-- Closed witness for C4 on a three-record input. -/
theorem inventory_partition_witness :
    (get_all_items [Dialog.mk "Alice" (Entity.user 1 "Alice" none none),
        Dialog.mk "Grp" (Entity.channel 3 false true),
        Dialog.mk "Ch" (Entity.channel 4 true false)]).size = 3 ∧
    ∀ b : Bucket,
      (get_all_items [Dialog.mk "Alice" (Entity.user 1 "Alice" none none),
          Dialog.mk "Grp" (Entity.channel 3 false true),
          Dialog.mk "Ch" (Entity.channel 4 true false)]).bucket b =
        ([Dialog.mk "Alice" (Entity.user 1 "Alice" none none),
            Dialog.mk "Grp" (Entity.channel 3 false true),
            Dialog.mk "Ch" (Entity.channel 4 true false)].filter
          (fun d => bucketOf d == b)).map itemOfDialog :=
  inventory_partition _

/-- The dialogs of the C5 scenario: two private chats and one
supergroup. -/
def c5dialogs : List Dialog :=
  [Dialog.mk "Alice" (Entity.user 1 "Alice" none none),
    Dialog.mk "Bob" (Entity.user 2 "Bob" none none),
    Dialog.mk "Grp" (Entity.channel 3 false true)]

/-- `--chats` alone. -/
def argsChatsOnly : Args := ⟨false, true, false, false, false⟩

/-- The items the C5 selection yields. -/
def c5sel : List TelegramItem := select_by_flags argsChatsOnly (get_all_items c5dialogs)

/-- Leave operations (either remote call shape). -/
def isLeaveCall : RemoteCall → Bool
  | RemoteCall.leaveChannel _ => true
  | RemoteCall.deleteChatUser _ => true
  | _ => false

/-- History-erase operations. -/
def isHistoryErase : RemoteCall → Bool
  | RemoteCall.deleteHistory _ _ _ _ => true
  | _ => false

/-- C5: with `--chats` alone on an inventory of 2 private chats, 1
supergroup, 0 channels, 0 other, the selected items are exactly the two
private chats, and execution after a "yes" confirmation issues exactly
the two history-erase calls and no leave call, whatever the remote
responses are. -/
theorem chats_flag_scenario (remote : Remote) :
    c5sel = [⟨1, "Alice  (@No username)", "Private Chat", Entity.user 1 "Alice" none none, false⟩,
      ⟨2, "Bob  (@No username)", "Private Chat", Entity.user 2 "Bob" none none, false⟩] ∧
    (confirm_and_execute remote "yes" c5sel).1 =
      [RemoteCall.deleteHistory (Entity.user 1 "Alice" none none) 0 false true,
        RemoteCall.deleteHistory (Entity.user 2 "Bob" none none) 0 false true] ∧
    ((confirm_and_execute remote "yes" c5sel).1.filter isHistoryErase).length = 2 ∧
    (confirm_and_execute remote "yes" c5sel).1.filter isLeaveCall = [] := by
  have hexec : (confirm_and_execute remote "yes" c5sel).1 = (deletionLoop remote c5sel).1 := by
    unfold confirm_and_execute
    rw [if_neg (by decide)]
  have htrace : (confirm_and_execute remote "yes" c5sel).1 =
      [RemoteCall.deleteHistory (Entity.user 1 "Alice" none none) 0 false true,
        RemoteCall.deleteHistory (Entity.user 2 "Bob" none none) 0 false true] := by
    rw [hexec, deletionLoop_calls]
    decide
  refine ⟨by decide, htrace, ?_, ?_⟩
  · rw [htrace]; decide
  · rw [htrace]; decide

/-- Closed witness for C5: the scenario instantiated at the
all-successful remote. -/
theorem chats_flag_scenario_witness :
    c5sel = [⟨1, "Alice  (@No username)", "Private Chat", Entity.user 1 "Alice" none none, false⟩,
      ⟨2, "Bob  (@No username)", "Private Chat", Entity.user 2 "Bob" none none, false⟩] ∧
    (confirm_and_execute remoteOk "yes" c5sel).1 =
      [RemoteCall.deleteHistory (Entity.user 1 "Alice" none none) 0 false true,
        RemoteCall.deleteHistory (Entity.user 2 "Bob" none none) 0 false true] ∧
    ((confirm_and_execute remoteOk "yes" c5sel).1.filter isHistoryErase).length = 2 ∧
    (confirm_and_execute remoteOk "yes" c5sel).1.filter isLeaveCall = [] :=
  chats_flag_scenario remoteOk

/-- C3: the Classifier assigns every entity exactly one of the six type
labels; the broadcast check precedes the megagroup check, which precedes
the generic channel fallback: `broadcast=true` classifies as
"Broadcast Channel" whatever `megagroup` is, and `broadcast=false,
megagroup=true` classifies as "Supergroup", never "Channel". -/
theorem classifier_order :
    (∀ d : Dialog, (itemOfDialog d).type ∈
      ["Private Chat", "Broadcast Channel", "Supergroup", "Channel", "Small Group", "Other"]) ∧
    (∀ (nm : String) (id : Nat) (mg : Bool),
      (itemOfDialog (Dialog.mk nm (Entity.channel id true mg))).type = "Broadcast Channel") ∧
    (∀ (nm : String) (id : Nat),
      (itemOfDialog (Dialog.mk nm (Entity.channel id false true))).type = "Supergroup" ∧
      (itemOfDialog (Dialog.mk nm (Entity.channel id false true))).type ≠ "Channel") := by
  refine ⟨?_, ?_, ?_⟩
  · rintro ⟨nm, e⟩
    rcases e with ⟨id, fn, ln, un⟩ | ⟨id, br, mg⟩ | id | oid
    · simp [itemOfDialog]
    · cases br <;> cases mg <;> simp [itemOfDialog]
    · simp [itemOfDialog]
    · simp [itemOfDialog]
  · intro nm id mg
    simp [itemOfDialog]
  · intro nm id
    refine ⟨rfl, ?_⟩
    simp [itemOfDialog]

/-- Closed witness for C3 at concrete channel entities. -/
theorem classifier_order_witness :
    (itemOfDialog (Dialog.mk "c" (Entity.channel 7 true true))).type = "Broadcast Channel" ∧
    (itemOfDialog (Dialog.mk "g" (Entity.channel 8 false true))).type = "Supergroup" ∧
    (itemOfDialog (Dialog.mk "g" (Entity.channel 8 false true))).type ≠ "Channel" :=
  ⟨classifier_order.2.1 "c" 7 true, (classifier_order.2.2 "g" 8).1,
    (classifier_order.2.2 "g" 8).2⟩

/-- A 12-item flattened list with alternating selected flags. -/
def c6list : List TelegramItem :=
  (List.range 12).map (fun n =>
    { samplePriv (n + 1) ("w" ++ toString (n + 1)) with selected := n % 2 == 0 })

/-- A 10-item flattened list. -/
def c10list : List TelegramItem :=
  (List.range 10).map (fun n => samplePriv (n + 1) ("x" ++ toString (n + 1)))

/-- C6: on a 12-item flattened list, the range command "5-10" toggles —
flips, not force-sets — exactly the selected flags of items 5 through 10
inclusive (1-based), leaving items 1-4 and 11-12 entirely unchanged,
and the loop continues. -/
theorem range_toggle_5_10 (flat : List TelegramItem) (h : flat.length = 12) :
    processCommand "5-10" flat = StepResult.again (toggleFrom 4 10 0 flat)
      ["Toggled selection for items " ++ toString (5 : Nat) ++ " to " ++ toString (10 : Nat) ++ ".",
        statusLine (toggleFrom 4 10 0 flat)] ∧
    ∀ i : Nat, (toggleFrom 4 10 0 flat).get? i =
      (flat.get? i).map (fun it =>
        if 5 ≤ i + 1 ∧ i + 1 ≤ 10 then { it with selected := !it.selected } else it) := by
  have hred : processCommand "5-10" flat =
      if 1 ≤ 5 ∧ 5 ≤ flat.length ∧ 1 ≤ 10 ∧ 10 ≤ flat.length then
        StepResult.again (toggleFrom 4 10 0 flat)
          ["Toggled selection for items " ++ toString (5 : Nat) ++ " to " ++ toString (10 : Nat) ++ ".",
            statusLine (toggleFrom 4 10 0 flat)]
      else
        StepResult.again flat
          ["Invalid range. Please use numbers between 1 and " ++ toString flat.length ++ ".",
            statusLine flat] := rfl
  constructor
  · rw [hred, if_pos ⟨by omega, by omega, by omega, by omega⟩]
  · intro i
    rw [toggleFrom_get? 4 10 flat 0 i]
    cases hg : flat.get? i with
    | none => rfl
    | some it =>
      simp only [Option.map_some']
      by_cases hc : 4 ≤ 0 + i ∧ 0 + i < 10
      · rw [if_pos hc, if_pos (by omega)]
      · rw [if_neg hc, if_neg (by omega)]

/-- Closed witness for C6 at a concrete 12-item list. -/
theorem range_toggle_5_10_witness :
    c6list.length = 12 ∧
    (processCommand "5-10" c6list = StepResult.again (toggleFrom 4 10 0 c6list)
      ["Toggled selection for items " ++ toString (5 : Nat) ++ " to " ++ toString (10 : Nat) ++ ".",
        statusLine (toggleFrom 4 10 0 c6list)] ∧
    ∀ i : Nat, (toggleFrom 4 10 0 c6list).get? i =
      (c6list.get? i).map (fun it =>
        if 5 ≤ i + 1 ∧ i + 1 ≤ 10 then { it with selected := !it.selected } else it)) :=
  ⟨by decide, range_toggle_5_10 c6list (by decide)⟩

/-- C10: a range command whose start exceeds its end, both endpoints in
bounds, is accepted without any error report: it toggles nothing, every
item keeps its selected flag, and the loop continues exactly as after a
successful toggle (the "Toggled selection" message and the status line
are printed). -/
theorem reversed_range_noop (flat : List TelegramItem) (h : 10 ≤ flat.length) :
    processCommand "10-5" flat = StepResult.again flat
      ["Toggled selection for items " ++ toString (10 : Nat) ++ " to " ++ toString (5 : Nat) ++ ".",
        statusLine flat] := by
  have hred : processCommand "10-5" flat =
      if 1 ≤ 10 ∧ 10 ≤ flat.length ∧ 1 ≤ 5 ∧ 5 ≤ flat.length then
        StepResult.again (toggleFrom 9 5 0 flat)
          ["Toggled selection for items " ++ toString (10 : Nat) ++ " to " ++ toString (5 : Nat) ++ ".",
            statusLine (toggleFrom 9 5 0 flat)]
      else
        StepResult.again flat
          ["Invalid range. Please use numbers between 1 and " ++ toString flat.length ++ ".",
            statusLine flat] := rfl
  rw [hred, if_pos ⟨by omega, by omega, by omega, by omega⟩, toggleFrom_ge 9 5 (by omega)]

/-- Closed witness for C10 at a concrete 10-item list. -/
theorem reversed_range_noop_witness :
    10 ≤ c10list.length ∧
    processCommand "10-5" c10list = StepResult.again c10list
      ["Toggled selection for items " ++ toString (10 : Nat) ++ " to " ++ toString (5 : Nat) ++ ".",
        statusLine c10list] :=
  ⟨by decide, reversed_range_noop c10list (by decide)⟩

/-- C7 counterexample: after the `quit` command is read, the program
does print one further line ("Operation cancelled.") before
`sys.exit(0)`, so the output after the command is not empty. -/
theorem quit_output_counterexample :
    processCommand "quit" [] = StepResult.exitProgram 0 ["Operation cancelled."] ∧
    (["Operation cancelled."] : List String) ≠ [] :=
  ⟨rfl, by decide⟩

/-- C7 (amended): `quit` aborts the entire program immediately with exit
status 0 after printing exactly the single line "Operation cancelled.";
no selection-status line or any other output follows. -/
theorem quit_exits_after_cancel_message (flat : List TelegramItem) :
    processCommand "quit" flat = StepResult.exitProgram 0 ["Operation cancelled."] := rfl

/-- Closed witness for the amended C7 at a concrete item list. -/
theorem quit_exits_after_cancel_message_witness :
    processCommand "quit" [samplePriv 1 "Alice"] =
      StepResult.exitProgram 0 ["Operation cancelled."] :=
  quit_exits_after_cancel_message [samplePriv 1 "Alice"]

/-- C1 counterexample: the confirmation input "YES" differs from the
exact lowercase string "yes", yet the executor runs and issues the
history-erase call, because the source lowercases the input before the
comparison. -/
theorem confirm_exact_counterexample :
    "YES" ≠ "yes" ∧
    (confirm_and_execute remoteOk "YES" [samplePriv 1 "Alice"]).1 =
      [RemoteCall.deleteHistory (Entity.user 1 "Alice" none none) 0 false true] :=
  ⟨by decide, rfl⟩

/-- C1 (amended): any confirmation input whose lowercased form is not
"yes" results in zero Deletion Executor calls: no history-erase and no
leave operation is issued and the run ends with no remote mutation. -/
theorem confirm_gate_lowercase (remote : Remote) (s : String)
    (items : List TelegramItem) (h : pyLower s ≠ "yes") :
    (confirm_and_execute remote s items).1 = [] := by
  rw [confirm_gate_skips remote s items h]

/-- Closed witness for the amended C1 at the concrete input "No". -/
theorem confirm_gate_lowercase_witness :
    (pyLower "No" ≠ "yes") ∧
    (confirm_and_execute remoteOk "No" [samplePriv 1 "Alice"]).1 = [] :=
  ⟨by decide, confirm_gate_lowercase remoteOk "No" [samplePriv 1 "Alice"] (by decide)⟩

/-- C8 counterexample: a filename whose file cannot be opened makes
`what` propagate the exception from `open` (the source has no handler
around it) rather than return the "unrecognized" result `None`. -/
theorem sniffer_unreadable_counterexample :
    what (fun _ => none) (FileArg.name "missing.png") none =
      Except.error (OpenFail.openFailed "missing.png") ∧
    Except.error (OpenFail.openFailed "missing.png") ≠
      Except.ok (none : Option String) :=
  ⟨rfl, fun hc => Except.noConfusion hc⟩

/-- C8 (amended): for header bytes supplied directly, or read from a
file object, the sniffer never raises: a header shorter than every
signature yields the "unrecognized" result `None`, and reading from a
file object always returns normally.  Only opening an unreadable
filename raises, and that error is the propagated `open` failure. -/
theorem sniffer_no_error_amended (fs : String → Option (List Nat)) (file : FileArg)
    (h : List Nat) (hs : h.length < 2) :
    what fs file (some h) = Except.ok none ∧
    ∀ (c : List Nat) (p : Nat), ∃ t : Option String,
      what fs (FileArg.handle c p) none = Except.ok t := by
  constructor
  · show Except.ok (whatBytes h) = Except.ok none
    rw [whatBytes_short h hs]
  · intro c p
    exact ⟨whatBytes ((c.drop p).take 32), rfl⟩

/-- Closed witness for the amended C8 at the one-byte header 0xff. -/
theorem sniffer_no_error_amended_witness :
    ([0xff] : List Nat).length < 2 ∧
    (what (fun _ => none) (FileArg.name "f.bin") (some [0xff]) = Except.ok none ∧
      ∀ (c : List Nat) (p : Nat), ∃ t : Option String,
        what (fun _ => none) (FileArg.handle c p) none = Except.ok t) :=
  ⟨by decide, sniffer_no_error_amended (fun _ => none) (FileArg.name "f.bin") [0xff] (by decide)⟩

/-- C9: the sniffer's classification is a pure function of the first at
most 32 header bytes — two headers agreeing on their first 32 bytes get
the same tag (identical headers trivially so) — and a header starting
with the RIFF prefix whose bytes 8-12 are not `WEBP` is never
classified webp. -/
theorem sniffer_pure_32 :
    (∀ h₁ h₂ : List Nat, h₁.take 32 = h₂.take 32 → whatBytes h₁ = whatBytes h₂) ∧
    (∀ h : List Nat, bytesStartWith riffSig h = true → pySlice h 8 12 ≠ webpTag →
      whatBytes h ≠ some "webp") := by
  constructor
  · intro h₁ h₂ ht
    rw [← whatBytes_take32 h₁, ← whatBytes_take32 h₂, ht]
  · intro h hriff hwebp
    unfold whatBytes
    split_ifs with h1 h2 h3 h4 h5 h6 h7 h8
    all_goals try decide
    rw [Bool.and_eq_true, beq_iff_eq] at h4
    exact absurd h4.2 hwebp

/-- A 32-byte RIFF header whose bytes 8-12 are not `WEBP`. -/
def c9hdr : List Nat := riffSig ++ [0, 0, 0, 0, 1, 2, 3, 4] ++ List.replicate 20 0

/-- The same header with a 33rd byte appended. -/
def c9hdrLong : List Nat := c9hdr ++ [7]

/-- Closed witness for C9: the two concrete headers agree on their first
32 bytes, the short one is RIFF-prefixed with bytes 8-12 not `WEBP`,
and both parts of the theorem apply. -/
theorem sniffer_pure_32_witness :
    (c9hdr.take 32 = c9hdrLong.take 32 ∧ bytesStartWith riffSig c9hdr = true ∧
      pySlice c9hdr 8 12 ≠ webpTag) ∧
    (whatBytes c9hdr = whatBytes c9hdrLong ∧ whatBytes c9hdr ≠ some "webp") :=
  ⟨⟨by decide, by decide, by decide⟩,
    sniffer_pure_32.1 c9hdr c9hdrLong (by decide),
    sniffer_pure_32.2 c9hdr (by decide) (by decide)⟩
